import Mathlib

/-!
# Portfolio page (`src/App.jsx`): star field, title tweens, scroll choreography, markup

A shallow embedding of the three components of `src/App.jsx`:

* `FloatingStars`: the `useFrame` callback that perturbs the position buffer;
* `FloatingText` and `Portfolio`: the two mount effects, as functions from the
  mount-time object graph to the list of calls made to the animation engine;
* `Portfolio`: the element tree it returns.

Numbers are taken in an arbitrary type `α` carrying the arithmetic the code uses;
`Math.sin`, `Math.cos` and `Math.PI` are parameters.  The theorems instantiate them
with the real sine, cosine and `π`, so rounding of IEEE doubles and of the
`Float32Array` that holds the positions is not part of the model.
-/

set_option autoImplicit false

namespace Website

/-! ## JavaScript failures -/

/-- The one failure the code can produce: reading a property of `undefined`/`null`. -/
inductive JSError where
  | typeError (reading : String)
  deriving DecidableEq, Repr

/-! ## Star field: object graph reached from `starsRef` -/

/-- A three.js buffer attribute: the typed array and its `needsUpdate` flag. -/
structure BufferAttribute (α : Type) where
  array : List α
  needsUpdate : Bool
  deriving DecidableEq, Repr

/-- The record `geometry.attributes`; `position` is `none` when the key is absent. -/
structure GeometryAttributes (α : Type) where
  position : Option (BufferAttribute α)
  deriving DecidableEq, Repr

/-- A three.js buffer geometry. -/
structure BufferGeometry (α : Type) where
  attributes : GeometryAttributes α
  deriving DecidableEq, Repr

/-- The object `starsRef.current` points to; `geometry` is `none` when the property is absent. -/
structure Points (α : Type) where
  geometry : Option (BufferGeometry α)
  deriving DecidableEq, Repr

/-- Everything `FloatingStars` owns: `starsRef.current` and `speeds.current`. -/
structure StarsState (α : Type) where
  starsRef : Option (Points α)
  speeds : List α
  deriving DecidableEq, Repr

section Stars

variable {α : Type} [Add α] [Mul α] [OfScientific α]

/-- The literal `8000` of `Array.from({ length: 8000 }, ...)`, of the loop bound and of
`count={8000}`. -/
def starCount : Nat := 8000

/-- `Array.from({ length: 8000 }, () => Math.random() * 0.0005 + 0.0001)`; `random k` is the
value returned by the `k`-th call of `Math.random`. -/
def initSpeeds (random : Nat → α) : List α :=
  (List.range starCount).map (fun k => random k * 0.0005 + 0.0001)

/-- `positions[j] += e` on a typed array: a store past the end is dropped. -/
def addAt (positions : List α) (j : Nat) (e : α) : List α :=
  match positions[j]? with
  | some v => positions.set j (v + e)
  | none => positions

/-- `speeds.current[i]` coerced to a number: reading past the end gives `undefined`,
which arithmetic turns into `nan`. -/
def speedAt (nan : α) (speeds : List α) (i : Nat) : α :=
  speeds.getD i nan

/-- One iteration of the `for` loop of the `useFrame` callback. -/
def starStep (sin cos : α → α) (nan : α) (speeds : List α) (time : α)
    (positions : List α) (i : Nat) : List α :=
  let positions := addAt positions (i * 3) (sin (time * speedAt nan speeds i) * 0.002)
  let positions := addAt positions (i * 3 + 1) (cos (time * speedAt nan speeds i) * 0.002)
  addAt positions (i * 3 + 2) (sin (time * speedAt nan speeds i) * 0.002)

/-- The loop `for (let i = 0; i < n; i++)` over the position array. -/
def starLoop (sin cos : α → α) (nan : α) (speeds : List α) (time : α) (n : Nat)
    (positions : List α) : List α :=
  (List.range n).foldl (starStep sin cos nan speeds time) positions

/-- The callback passed to `useFrame` in `FloatingStars`; `time` is
`clock.getElapsedTime()`. -/
def useFrame (sin cos : α → α) (nan : α) (st : StarsState α) (time : α) :
    Except JSError (StarsState α) :=
  match st.starsRef with
  | none => .ok st
  | some pts =>
    match pts.geometry with
    | none => .error (.typeError "attributes")
    | some geometry =>
      match geometry.attributes.position with
      | none => .error (.typeError "array")
      | some position =>
        let positions := starLoop sin cos nan st.speeds time starCount position.array
        .ok { st with
              starsRef := some { pts with
                geometry := some { geometry with
                  attributes := { geometry.attributes with
                    position := some { array := positions, needsUpdate := true } } } } }

/-- The render loop calling the callback once per frame, with the elapsed times in order;
a raised error ends the run. -/
def runFrames (sin cos : α → α) (nan : α) (st : StarsState α) :
    List α → Except JSError (StarsState α)
  | [] => .ok st
  | time :: rest =>
    match useFrame sin cos nan st time with
    | .ok st' => runFrames sin cos nan st' rest
    | .error e => .error e

/-- The typed array behind `starsRef.current.geometry.attributes.position`, when every
link of the chain is there. -/
def positionArray (st : StarsState α) : Option (List α) :=
  match st.starsRef with
  | none => none
  | some pts =>
    match pts.geometry with
    | none => none
    | some geometry =>
      match geometry.attributes.position with
      | none => none
      | some position => some position.array

/-- A mounted star field whose position attribute holds `positions`. -/
def mountedStars (positions : List α) (needsUpdate : Bool) (speeds : List α) : StarsState α :=
  { starsRef := some { geometry := some { attributes :=
      { position := some { array := positions, needsUpdate := needsUpdate } } } },
    speeds := speeds }

/-- What one frame adds to coordinate `k` of the buffer: the cosine term for the `y`
coordinates (`k % 3 = 1`), the sine term for `x` and `z`. -/
def frameOffset (sin cos : α → α) (nan : α) (speeds : List α) (time : α) (k : Nat) : α :=
  if k % 3 = 1 then cos (time * speedAt nan speeds (k / 3)) * 0.002
  else sin (time * speedAt nan speeds (k / 3)) * 0.002

end Stars

/-! ## Title mesh: object graph reached from `textMeshRef` -/

/-- A three.js material, known by its identity. -/
structure Material where
  uid : Nat
  deriving DecidableEq, Repr

/-- The `rotation` object of an `Object3D`, known by its identity. -/
structure Euler where
  uid : Nat
  deriving DecidableEq, Repr

/-- A child object; `material` is `none` when the property is absent or falsy. -/
structure Mesh where
  material : Option Material
  deriving DecidableEq, Repr

/-- The object `textMeshRef.current` points to.  `children` is `none` when the property is
absent; an entry of the array is `none` when it is `undefined` or `null`. -/
structure Text3DObject where
  rotation : Euler
  children : Option (List (Option Mesh))
  deriving DecidableEq, Repr

/-! ## Calls into the animation engine -/

/-- The object literal given to `ScrollTrigger.create` or as `scrollTrigger:`; a key that the
literal does not have is `none`. -/
structure ScrollTriggerVars where
  trigger : String
  start : String
  «end» : String
  pin : Option String
  pinSpacing : Option Bool
  scrub : Option Bool
  deriving DecidableEq, Repr

/-- The object literal given to `gsap.to`; a key that the literal does not have is `none`. -/
structure TweenVars (α : Type) where
  y : Option α
  opacity : Option α
  duration : Option α
  «repeat» : Option Int
  yoyo : Option Bool
  ease : Option String
  scrollTrigger : Option ScrollTriggerVars
  deriving DecidableEq, Repr

/-- The first argument of `gsap.to`. -/
inductive TweenTarget where
  | rotation (r : Euler)
  | material (m : Material)
  deriving DecidableEq, Repr

/-- A call made by a mount effect, in program order. -/
inductive EngineCall (α : Type) where
  | registerPlugin (plugin : String)
  | scrollTriggerCreate (vars : ScrollTriggerVars)
  | gsapTo (target : TweenTarget) (vars : TweenVars α)
  deriving DecidableEq, Repr

section Effects

variable {α : Type} [Field α]

/-- The literal passed to `gsap.to` in `FloatingText`; `PI` is `Math.PI`. -/
def rotationTweenVars (PI : α) : TweenVars α :=
  { y := some (PI / 14), opacity := none, duration := some 3, «repeat» := some (-1),
    yoyo := some true, ease := some "power2.inOut", scrollTrigger := none }

/-- The effect of `FloatingText`, run once at mount with the current value of
`textMeshRef.current`. -/
def floatingTextEffect (PI : α) (textMeshRef : Option Text3DObject) :
    Except JSError (List (EngineCall α)) :=
  match textMeshRef with
  | none => .ok []
  | some obj => .ok [.gsapTo (.rotation obj.rotation) (rotationTweenVars PI)]

/-- The literal passed to `ScrollTrigger.create` in `Portfolio`. -/
def heroPinVars : ScrollTriggerVars :=
  { trigger := ".hero", start := "top top", «end» := "bottom top", pin := some ".hero",
    pinSpacing := some false, scrub := none }

/-- The literal passed to `gsap.to` in `Portfolio`. -/
def fadeTweenVars : TweenVars α :=
  { y := none, opacity := some 0, duration := none, «repeat» := none, yoyo := none,
    ease := none,
    scrollTrigger := some { trigger := ".hero", start := "top top", «end» := "bottom top",
                            pin := none, pinSpacing := none, scrub := some true } }

/-- The expression `text3DObj.children && text3DObj.children[0]`, up to truthiness. -/
def firstChild (text3DObj : Text3DObject) : Option Mesh :=
  match text3DObj.children with
  | none => none
  | some children =>
    match children[0]? with
    | some (some mesh) => some mesh
    | _ => none

/-- The effect of `Portfolio`, run once at mount with the current value of
`textMeshRef.current`. -/
def portfolioEffect (textMeshRef : Option Text3DObject) :
    Except JSError (List (EngineCall α)) :=
  let setup : List (EngineCall α) :=
    [.registerPlugin "ScrollTrigger", .scrollTriggerCreate heroPinVars]
  match textMeshRef with
  | none => .ok setup
  | some text3DObj =>
    match firstChild text3DObj with
    | none => .ok setup
    | some mesh =>
      match mesh.material with
      | none => .ok setup
      | some material => .ok (setup ++ [.gsapTo (.material material) fadeTweenVars])

/-- The material the fade would be bound to: `textMeshRef.current.children[0].material`,
when every link of the chain is there. -/
def titleMaterial (textMeshRef : Option Text3DObject) : Option Material :=
  match textMeshRef with
  | none => none
  | some text3DObj =>
    match firstChild text3DObj with
    | none => none
    | some mesh => mesh.material

/-- The tweens of opacity among the calls: `gsap.to` calls whose literal has an `opacity`
key and a `scrollTrigger` key. -/
def opacityTweens (calls : List (EngineCall α)) : List (TweenTarget × TweenVars α) :=
  calls.filterMap fun c =>
    match c with
    | .gsapTo target vars =>
      if vars.opacity.isSome && vars.scrollTrigger.isSome then some (target, vars) else none
    | _ => none

/-- The literals of the `ScrollTrigger.create` calls among the calls. -/
def pinTriggers (calls : List (EngineCall α)) : List ScrollTriggerVars :=
  calls.filterMap fun c =>
    match c with
    | .scrollTriggerCreate vars => some vars
    | _ => none

/-- The tweens started on a rotation object among the calls. -/
def rotationTweens (calls : List (EngineCall α)) : List (Euler × TweenVars α) :=
  calls.filterMap fun c =>
    match c with
    | .gsapTo (.rotation r) vars => some (r, vars)
    | _ => none

end Effects

/-! ## The animation engine's interpolation -/

section Engine

variable {α : Type} [LinearOrderedField α]

/-- Modelled from the spec: the animation engine (gsap) is a library outside the repository.
Its named easing curves on progress `p`: `power2.inOut` is the cubic in-out curve,
`power1.out` the quadratic out curve; a tween without an `ease` key, or with a name other
than these two, is given `power1.out`, the engine's default. -/
def easeCurve (ease : Option String) (p : α) : α :=
  if ease = some "power2.inOut" then
    if p < 1 / 2 then (p * 2) ^ 3 / 2 else 1 - ((1 - p) * 2) ^ 3 / 2
  else 1 - (1 - p) ^ 2

/-- Modelled from the spec: the animation engine (gsap) is a library outside the repository.
The value of a tweened property at eased progress: `start + (target - start) * ease p`. -/
def tweenValue (start target : α) (ease : α → α) (p : α) : α :=
  start + (target - start) * ease p

/-- Modelled from the spec: the animation engine (gsap) is a library outside the repository.
With `repeat: -1` and `yoyo: true` the progress at time `tau` is the triangle wave of
`tau / duration`: it rises on even iterations and falls on odd ones. -/
def yoyoProgress [FloorRing α] (duration tau : α) : α :=
  let cycles := tau / duration
  let iteration : Int := ⌊cycles⌋
  if iteration % 2 = 0 then cycles - iteration else 1 - (cycles - iteration)

/-- Modelled from the spec: the animation engine (gsap) is a library outside the repository.
The `y` of the title's rotation at time `tau` after mount, for the tween described by
`vars` started from `y0`: target, duration and ease are read from the literal (a missing
target leaves the value at `y0`; a missing duration is the engine's default `0.5`). -/
def rotationY [FloorRing α] (vars : TweenVars α) (y0 tau : α) : α :=
  tweenValue y0 (vars.y.getD y0) (easeCurve vars.ease)
    (yoyoProgress (vars.duration.getD (1 / 2)) tau)

/-- Modelled from the spec: the animation engine (gsap) is a library outside the repository.
The opacity at scroll progress `q` for the scrubbed tween described by `vars`, started from
opacity `start`. -/
def scrubbedOpacity (vars : TweenVars α) (start q : α) : α :=
  tweenValue start (vars.opacity.getD start) (easeCurve vars.ease) q

/-- Modelled from the spec: the animation engine (gsap) is a library outside the repository.
With `scrub: true` every scroll event sets the property from the scroll progress alone;
`path` is the sequence of progress values visited, and the result is the opacity after the
last of them (`start` before any scrolling). -/
def opacityAfterScroll (vars : TweenVars α) (start : α) (path : List α) : α :=
  path.foldl (fun _ q => scrubbedOpacity vars start q) start

end Engine

/-! ## The element tree returned by `Portfolio` -/

/-- The value of a JSX attribute: a string literal, or the literal/identifier between
braces. -/
inductive JSValue where
  | str (s : String)
  | num (n : Int)
  | bool (b : Bool)
  | ident (name : String)
  | arr (items : List JSValue)
  | obj (fields : List (String × JSValue))

/-- A node of the element tree: a text child, or an element with its attributes in source
order and its children. -/
inductive Node where
  | text (s : String)
  | element (tag : String) (props : List (String × JSValue)) (children : List Node)

/-- The `return (...)` of `Portfolio`.  JSX comments produce no child; JSX text is trimmed
line by line and its lines are joined by one blank. -/
def portfolioTree : Node :=
  .element "div"
    [("className", .str "portfolio")]
    [.element "section"
       [("className", .str "hero"), ("ref", .ident "heroRef")]
       [.element "div"
          [("className", .str "hero-canvas")]
          [.element "Canvas"
             [("camera", .obj [("position", .arr [.num 0, .num 0, .num 7])])]
             [.element "ambientLight"
                [("intensity", .num 1)]
                [],
              .element "directionalLight"
                [("position", .arr [.num 0, .num 0, .num 10]), ("intensity", .num 2),
                 ("color", .str "#ffffff")]
                [],
              .element "Environment"
                [("preset", .str "city")]
                [],
              .element "FloatingStars"
                []
                [],
              .element "FloatingText"
                [("textMeshRef", .ident "textMeshRef")]
                [],
              .element "OrbitControls"
                [("enablePan", .bool false), ("enableZoom", .bool false)]
                []]]],
     .element "section"
       [("className", .str "about-section")]
       [.element "h2"
          []
          [.text "About Me"],
        .element "img"
          [("src", .ident "myPhoto"), ("alt", .str "Arnav"),
           ("style", .obj [("width", .str "200px"), ("height", .str "200px"), ("objectFit", .str "cover"), ("marginBottom", .str "1rem")])]
          [],
        .element "p"
          []
          [.text "I'm Arnav, a passionate developer pushing the boundaries of creativity and technology. Welcome to my portfolio!"]],
     .element "section"
       [("className", .str "skills-section")]
       [.element "h2"
          []
          [.text "Key Strengths"],
        .element "div"
          [("className", .str "cards-container")]
          [.element "div"
             [("className", .str "card")]
             [.element "h3"
                []
                [.text "Strong CS Background"],
              .element "ul"
                [("style", .obj [("textAlign", .str "left")])]
                [.element "li"
                   []
                   [.text "In-depth knowledge of multiple programming languages (Java, Python, C++, etc.)"],
                 .element "li"
                   []
                   [.text "Tutored CS, reinforcing core concepts and fundamentals"],
                 .element "li"
                   []
                   [.text "Developed real-world solutions in various environments (backend, system-level, etc.)"]]],
           .element "div"
             [("className", .str "card")]
             [.element "h3"
                []
                [.text "Leadership"],
              .element "ul"
                [("style", .obj [("textAlign", .str "left")])]
                [.element "li"
                   []
                   [.text "Executive team member(President elect) at YesUW, organizing events for hundreds, encouraging people to go outisde thier comfort zones and connect with strangers."],
                 .element "li"
                   []
                   [.text "Building Manager at Wisconsin Union,Oversee daily operations, ensuring smooth functionality and adherence to safety protocols.-Gained valuable experience in team management, problem-solving, and decision-making, c"]]],
           .element "div"
             [("className", .str "card")]
             [.element "h3"
                []
                [.text "Teaching & Mentorship"],
              .element "ul"
                [("style", .obj [("textAlign", .str "left")])]
                [.element "li"
                   []
                   [.text "Guided 500+ students in foundational AI (search algorithms, optimization, reinforcement learning) through 1-on-1 and group sessions."],
                 .element "li"
                   []
                   [.text "Improved success rates by offering detailed feedback on large-scale programming projects and clarifying advanced concepts."]]]]],
     .element "section"
       [("className", .str "current-project-section")]
       [.element "h2"
          []
          [.text "Current Projects"],
        .element "div"
          [("className", .str "cards-container")]
          [.element "div"
             [("className", .str "card")]
             [.element "h3"
                []
                [.text "Home Services App (TBA)"],
              .element "p"
                []
                [.text "Project in progressâ€”details forthcoming."]],
           .element "div"
             [("className", .str "card")]
             [.element "h3"
                []
                [.text "AIvestor"],
              .element "ul"
                [("style", .obj [("textAlign", .str "left")])]
                [.element "li"
                   []
                   [.text "Developing a reinforcement learning model to optimize portfolio allocation by maximizing returns and minimizing risks."],
                 .element "li"
                   []
                   [.text "Implemented Proximal Policy Optimization, leveraging Yahoo Finance to train the RL agent on historical data."],
                 .element "li"
                   []
                   [.text "Creating an interactive dashboard using Matplotlib and Plotly to visualize portfolio performance and allocation trends."]]],
           .element "div"
             [("className", .str "card")]
             [.element "h3"
                []
                [.text "Sponta"],
              .element "p"
                []
                [.text "An app that encourages users to seek discomfort and embrace spontaneity."]]]],
     .element "section"
       [("className", .str "projects-section")]
       [.element "h2"
          []
          [.text "Past Projects"],
        .element "p"
          []
          [.text "Check out my GitHub to see some of my past work:",
           .element "br"
             []
             [],
           .element "img"
             [("src", .ident "githubLogo"), ("alt", .str "GitHub"),
              ("style", .obj [("width", .str "50px"), ("marginRight", .str "8px")])]
             [],
           .element "a"
             [("href", .str "https://github.com/7arnav1"), ("target", .str "_blank"),
              ("rel", .str "noreferrer"), ("style", .obj [("color", .str "#ff66ff")])]
             [.text "github.com/7arnav1"]]],
     .element "section"
       [("className", .str "connect-section")]
       [.element "h2"
          []
          [.text "Connect With Me"],
        .element "p"
          []
          [.text "Feel free to connect with me on LinkedIn:",
           .element "br"
             []
             [],
           .element "img"
             [("src", .ident "linkedInLogo"), ("alt", .str "LinkedIn"),
              ("style", .obj [("width", .str "50px"), ("marginRight", .str "8px"), ("verticalAlign", .str "middle")])]
             [],
           .element "a"
             [("href", .str "https://www.linkedin.com/in/arnav-srivastav/"),
              ("target", .str "_blank"), ("rel", .str "noreferrer"),
              ("style", .obj [("color", .str "#66ff66")])]
             [.text "linkedin.com/in/arnav-srivastav"]]]]

namespace Node

mutual
/-- The text a node shows: its text descendants, concatenated in document order. -/
def textContent : Node → String
  | .text s => s
  | .element _ _ children => textContentAll children
/-- The text of a list of siblings. -/
def textContentAll : List Node → String
  | [] => ""
  | c :: rest => textContent c ++ textContentAll rest
end

mutual
/-- All elements with the given tag, the node itself included, in document order. -/
def elementsByTag (tag : String) : Node → List Node
  | .text _ => []
  | .element t props children =>
    (if t = tag then [.element t props children] else []) ++ elementsByTagAll tag children
/-- The elements with the given tag in a list of siblings and below them. -/
def elementsByTagAll (tag : String) : List Node → List Node
  | [] => []
  | c :: rest => elementsByTag tag c ++ elementsByTagAll tag rest
end

/-- The string value of an attribute, when the element has it as a string literal. -/
def attr (name : String) : Node → Option String
  | .text _ => none
  | .element _ props _ =>
    match props.lookup name with
    | some (.str s) => some s
    | _ => none

end Node

/-- What an anchor shows and where it leads. -/
structure Anchor where
  text : String
  href : Option String
  target : Option String
  deriving DecidableEq, Repr

/-- The anchors of a tree, in document order. -/
def anchors (root : Node) : List Anchor :=
  (root.elementsByTag "a").map fun a =>
    { text := a.textContent, href := a.attr "href", target := a.attr "target" }

/-! ## The per-frame update, entry by entry -/

section StarLemmas

set_option linter.unusedSectionVars false

variable {α : Type} [Add α] [Mul α] [OfScientific α]

theorem addAt_length (positions : List α) (j : Nat) (e : α) :
    (addAt positions j e).length = positions.length := by
  unfold addAt
  split <;> simp

theorem addAt_getElem? (positions : List α) (j k : Nat) (e : α) :
    (addAt positions j e)[k]? =
      if k = j then positions[k]?.map (fun v => v + e) else positions[k]? := by
  unfold addAt
  by_cases hkj : k = j
  · subst hkj
    cases h : positions[k]? with
    | none => simp [h]
    | some v =>
      have hk : k < positions.length := by
        rcases List.getElem?_eq_some_iff.mp h with ⟨hk, _⟩
        exact hk
      simp [h, hk]
  · cases h : positions[j]? with
    | none => simp [hkj]
    | some v =>
      have hjk : j ≠ k := fun h' => hkj h'.symm
      simp [hkj, List.getElem?_set_ne hjk]

theorem starStep_length (sin cos : α → α) (nan : α) (speeds : List α) (time : α)
    (positions : List α) (i : Nat) :
    (starStep sin cos nan speeds time positions i).length = positions.length := by
  simp [starStep, addAt_length]

theorem starStep_getElem? (sin cos : α → α) (nan : α) (speeds : List α) (time : α)
    (positions : List α) (i k : Nat) :
    (starStep sin cos nan speeds time positions i)[k]? =
      if k / 3 = i then
        positions[k]?.map (fun v => v + frameOffset sin cos nan speeds time k)
      else positions[k]? := by
  simp only [starStep, addAt_getElem?, frameOffset]
  by_cases h0 : k = i * 3
  · subst h0
    have h1 : ¬ i * 3 = i * 3 + 2 := by omega
    have h2 : ¬ i * 3 = i * 3 + 1 := by omega
    have h3 : i * 3 / 3 = i := by omega
    have h4 : ¬ i * 3 % 3 = 1 := by omega
    simp [h1, h2, h3, h4]
  · by_cases h1 : k = i * 3 + 1
    · subst h1
      have h2 : ¬ i * 3 + 1 = i * 3 + 2 := by omega
      have h3 : (i * 3 + 1) / 3 = i := by omega
      have h4 : (i * 3 + 1) % 3 = 1 := by omega
      simp [h2, h3, h4]
    · by_cases h2 : k = i * 3 + 2
      · subst h2
        have h3 : (i * 3 + 2) / 3 = i := by omega
        have h4 : ¬ (i * 3 + 2) % 3 = 1 := by omega
        simp [h3, h4]
      · have h3 : ¬ k / 3 = i := by omega
        simp [h0, h1, h2, h3]

theorem starLoop_length (sin cos : α → α) (nan : α) (speeds : List α) (time : α) (n : Nat)
    (positions : List α) :
    (starLoop sin cos nan speeds time n positions).length = positions.length := by
  induction n with
  | zero => simp [starLoop]
  | succ n ih =>
    have hstep : starLoop sin cos nan speeds time (n + 1) positions =
        starStep sin cos nan speeds time (starLoop sin cos nan speeds time n positions) n := by
      simp [starLoop, List.range_succ, List.foldl_append]
    rw [hstep, starStep_length, ih]

theorem starLoop_getElem? (sin cos : α → α) (nan : α) (speeds : List α) (time : α) (n : Nat)
    (positions : List α) (k : Nat) :
    (starLoop sin cos nan speeds time n positions)[k]? =
      if k / 3 < n then
        positions[k]?.map (fun v => v + frameOffset sin cos nan speeds time k)
      else positions[k]? := by
  induction n with
  | zero => simp [starLoop]
  | succ n ih =>
    have hstep : starLoop sin cos nan speeds time (n + 1) positions =
        starStep sin cos nan speeds time (starLoop sin cos nan speeds time n positions) n := by
      simp [starLoop, List.range_succ, List.foldl_append]
    rw [hstep, starStep_getElem?, ih]
    by_cases h1 : k / 3 = n
    · have h2 : ¬ k / 3 < n := by omega
      have h3 : k / 3 < n + 1 := by omega
      simp [h1, h2, h3]
    · by_cases h2 : k / 3 < n
      · have h3 : k / 3 < n + 1 := by omega
        simp [h1, h2, h3]
      · have h3 : ¬ k / 3 < n + 1 := by omega
        simp [h1, h2, h3]

theorem initSpeeds_length (random : Nat → α) : (initSpeeds random).length = starCount := by
  simp [initSpeeds]

/-- A frame on a state whose position array is reachable succeeds, keeps the speeds and
replaces the array by the result of the loop. -/
theorem useFrame_of_positionArray (sin cos : α → α) (nan : α) (st : StarsState α) (time : α)
    (p : List α) (hst : positionArray st = some p) :
    ∃ st', useFrame sin cos nan st time = .ok st' ∧ st'.speeds = st.speeds ∧
      positionArray st' = some (starLoop sin cos nan st.speeds time starCount p) := by
  obtain ⟨ref, speeds⟩ := st
  cases ref with
  | none => simp [positionArray] at hst
  | some pts =>
    obtain ⟨geo⟩ := pts
    cases geo with
    | none => simp [positionArray] at hst
    | some geometry =>
      obtain ⟨⟨pos⟩⟩ := geometry
      cases pos with
      | none => simp [positionArray] at hst
      | some position =>
        simp only [positionArray, Option.some.injEq] at hst
        subst hst
        refine ⟨mountedStars (starLoop sin cos nan speeds time starCount position.array) true
          speeds, ?_, ?_, ?_⟩
        · simp only [useFrame, mountedStars]
        · simp only [mountedStars]
        · simp only [positionArray, mountedStars]

/-- Any run of frames from a state whose position array is reachable succeeds, keeps the
speeds, and ends with an array of the same length that satisfies every relation `R`
between initial and current array which holds initially and is carried by one loop. -/
theorem runFrames_of_positionArray (sin cos : α → α) (nan : α) (R : List α → Prop)
    (speeds : List α)
    (hR : ∀ q time, R q → R (starLoop sin cos nan speeds time starCount q))
    (times : List α) :
    ∀ (st : StarsState α) (p : List α), positionArray st = some p → st.speeds = speeds → R p →
      ∃ st' p', runFrames sin cos nan st times = .ok st' ∧ st'.speeds = speeds ∧
        positionArray st' = some p' ∧ p'.length = p.length ∧ R p' := by
  induction times with
  | nil =>
    intro st p hst hsp hp
    exact ⟨st, p, rfl, hsp, hst, rfl, hp⟩
  | cons time rest ih =>
    intro st p hst hsp hp
    obtain ⟨st1, h1, h2, h3⟩ := useFrame_of_positionArray sin cos nan st time p hst
    have hR1 := hR p time hp
    rw [hsp] at h3 h2
    obtain ⟨st', p', h4, h5, h6, h7, h8⟩ := ih st1 _ h3 h2 hR1
    refine ⟨st', p', ?_, h5, h6, ?_, h8⟩
    · simp [runFrames, h1, h4]
    · rw [h7, starLoop_length]

end StarLemmas


/-! ## Star field: the claims -/

section StarClaims

/-- C1: for the star field with 8000 points, after any number of frames applied to a
position buffer of 3 * 8000 coordinates (one frame per entry of `times`), the run succeeds,
the buffer still has 3 * 8000 coordinates, the speed sequence still has 8000 entries, and so
the buffer holds as many points as there are speeds. -/
theorem frames_preserve_point_count {α : Type} [Add α] [Mul α] [OfScientific α]
    (sin cos : α → α) (nan : α) (st : StarsState α) (p : List α) (times : List α)
    (hst : positionArray st = some p) (hp : p.length = 3 * starCount)
    (hs : st.speeds.length = starCount) :
    ∃ st' p', runFrames sin cos nan st times = .ok st' ∧ positionArray st' = some p' ∧
      p'.length = 3 * starCount ∧ st'.speeds.length = starCount ∧
      p'.length = 3 * st'.speeds.length := by
  obtain ⟨st', p', h1, h2, h3, h4, _⟩ :=
    runFrames_of_positionArray sin cos nan (fun _ => True) st.speeds (fun _ _ _ => trivial)
      times st p hst rfl trivial
  refine ⟨st', p', h1, h3, ?_, ?_, ?_⟩
  · rw [h4, hp]
  · rw [h2, hs]
  · rw [h4, hp, h2, hs]

/-- Witness for C1: three frames on a buffer of 24000 zeros with the speeds the component
creates from a constant random source. -/
theorem frames_preserve_point_count_witness :
    ∃ st' p', runFrames (fun x : ℚ => x) (fun x : ℚ => x) 0
        (mountedStars (List.replicate (3 * starCount) 0) false (initSpeeds fun _ => 0))
        [0, 1, 2] = .ok st' ∧
      positionArray st' = some p' ∧
      p'.length = 3 * starCount ∧ st'.speeds.length = starCount ∧
      p'.length = 3 * st'.speeds.length :=
  frames_preserve_point_count (fun x : ℚ => x) (fun x : ℚ => x) 0
    (mountedStars (List.replicate (3 * starCount) 0) false (initSpeeds fun _ => 0))
    (List.replicate (3 * starCount) 0) [0, 1, 2]
    (by simp only [positionArray, mountedStars])
    (List.length_replicate _ _)
    (by simp only [mountedStars, initSpeeds_length])

/-- C2: over the reals, one frame at elapsed time `t` on a buffer `p` of 24000 coordinates
with 8000 speeds `s` succeeds and yields a buffer `p'` with, for every point `i < 8000`,
`p'[3i] = p[3i] + sin (t * s[i]) * 0.002`, `p'[3i+1] = p[3i+1] + cos (t * s[i]) * 0.002` and
`p'[3i+2] = p[3i+2] + sin (t * s[i]) * 0.002`. -/
theorem useFrame_adds_offsets (nan t : ℝ) (st : StarsState ℝ) (p s : List ℝ)
    (hst : positionArray st = some p) (hss : st.speeds = s)
    (hs : s.length = 8000) (hp : p.length = 24000) :
    ∃ st' p', useFrame Real.sin Real.cos nan st t = .ok st' ∧ positionArray st' = some p' ∧
      ∀ i (hi : i < 8000),
        p'[3 * i]? = some (p[3 * i] + Real.sin (t * s[i]) * 0.002) ∧
        p'[3 * i + 1]? = some (p[3 * i + 1] + Real.cos (t * s[i]) * 0.002) ∧
        p'[3 * i + 2]? = some (p[3 * i + 2] + Real.sin (t * s[i]) * 0.002) := by
  obtain ⟨st', h1, _, h3⟩ := useFrame_of_positionArray Real.sin Real.cos nan st t p hst
  refine ⟨st', _, h1, h3, ?_⟩
  intro i hi
  have hsp : speedAt nan st.speeds i = s[i] := by
    subst hss
    simp [speedAt, List.getD_eq_getElem?_getD, List.getElem?_eq_getElem (by omega : i < st.speeds.length)]
  have d0 : 3 * i / 3 = i := by omega
  have d1 : (3 * i + 1) / 3 = i := by omega
  have d2 : (3 * i + 2) / 3 = i := by omega
  have m0 : ¬ 3 * i % 3 = 1 := by omega
  have m1 : (3 * i + 1) % 3 = 1 := by omega
  have m2 : ¬ (3 * i + 2) % 3 = 1 := by omega
  have c : i < starCount := by simp only [starCount]; exact hi
  refine ⟨?_, ?_, ?_⟩
  · rw [starLoop_getElem?, if_pos (by rw [d0]; exact c),
      List.getElem?_eq_getElem (by omega : 3 * i < p.length)]
    simp [frameOffset, d0, m0, hsp]
  · rw [starLoop_getElem?, if_pos (by rw [d1]; exact c),
      List.getElem?_eq_getElem (by omega : 3 * i + 1 < p.length)]
    simp [frameOffset, d1, m1, hsp]
  · rw [starLoop_getElem?, if_pos (by rw [d2]; exact c),
      List.getElem?_eq_getElem (by omega : 3 * i + 2 < p.length)]
    simp [frameOffset, d2, m2, hsp]

/-- Witness for C2: a frame at time `0` on 24000 zeros with 8000 zero speeds, read at
point `0`. -/
theorem useFrame_adds_offsets_witness :
    ∃ st' p', useFrame Real.sin Real.cos 0
        (mountedStars (List.replicate 24000 0) false (List.replicate 8000 0)) 0 = .ok st' ∧
      positionArray st' = some p' ∧
      p'[0]? = some (0 + Real.sin (0 * 0) * 0.002) ∧
      p'[1]? = some (0 + Real.cos (0 * 0) * 0.002) ∧
      p'[2]? = some (0 + Real.sin (0 * 0) * 0.002) := by
  obtain ⟨st', p', h1, h2, h3⟩ :=
    useFrame_adds_offsets 0 0
      (mountedStars (List.replicate 24000 0) false (List.replicate 8000 0))
      (List.replicate 24000 0) (List.replicate 8000 0)
      (by simp only [positionArray, mountedStars])
      (by simp only [mountedStars])
      (List.length_replicate _ _) (List.length_replicate _ _)
  refine ⟨st', p', h1, h2, ?_⟩
  have h := h3 0 (by norm_num)
  simp only [List.getElem_replicate] at h
  exact h

/-- C10: over the reals, after any run of frames at arbitrary times on a buffer `p` of 24000
coordinates, the run succeeds and for every point `i < 8000` the difference between its `x`
coordinate (index `3i`) and its `z` coordinate (index `3i+2`) is what it was initially. -/
theorem x_minus_z_invariant (nan : ℝ) (st : StarsState ℝ) (p : List ℝ) (times : List ℝ)
    (hst : positionArray st = some p) (hp : p.length = 24000) :
    ∃ st' p', runFrames Real.sin Real.cos nan st times = .ok st' ∧
      positionArray st' = some p' ∧
      ∀ i (hi : i < 8000), ∃ x z, p'[3 * i]? = some x ∧ p'[3 * i + 2]? = some z ∧
        x - z = p[3 * i] - p[3 * i + 2] := by
  obtain ⟨st', p', h1, _, h3, _, h5⟩ :=
    runFrames_of_positionArray Real.sin Real.cos nan
      (fun q => ∀ i (hi : i < 8000), ∃ x z, q[3 * i]? = some x ∧ q[3 * i + 2]? = some z ∧
        x - z = p[3 * i] - p[3 * i + 2])
      st.speeds
      (by
        intro q time hq i hi
        obtain ⟨x, z, hx, hz, hxz⟩ := hq i hi
        have d0 : 3 * i / 3 = i := by omega
        have d2 : (3 * i + 2) / 3 = i := by omega
        have m0 : ¬ 3 * i % 3 = 1 := by omega
        have m2 : ¬ (3 * i + 2) % 3 = 1 := by omega
        have c : i < starCount := by simp only [starCount]; exact hi
        refine ⟨x + Real.sin (time * speedAt nan st.speeds i) * 0.002,
          z + Real.sin (time * speedAt nan st.speeds i) * 0.002, ?_, ?_, ?_⟩
        · rw [starLoop_getElem?, if_pos (by rw [d0]; exact c), hx]
          simp [frameOffset, d0, m0]
        · rw [starLoop_getElem?, if_pos (by rw [d2]; exact c), hz]
          simp [frameOffset, d2, m2]
        · rw [← hxz]
          ring)
      times st p hst rfl
      (by
        intro i hi
        exact ⟨p[3 * i], p[3 * i + 2], List.getElem?_eq_getElem _, List.getElem?_eq_getElem _,
          rfl⟩)
  exact ⟨st', p', h1, h3, h5⟩

/-- Witness for C10: two frames on 24000 zeros with 8000 zero speeds, read at point `0`. -/
theorem x_minus_z_invariant_witness :
    ∃ st' p', runFrames Real.sin Real.cos 0
        (mountedStars (List.replicate 24000 0) false (List.replicate 8000 0)) [1, 2] = .ok st' ∧
      positionArray st' = some p' ∧
      ∃ x z, p'[0]? = some x ∧ p'[2]? = some z ∧ x - z = 0 := by
  obtain ⟨st', p', h1, h2, h3⟩ :=
    x_minus_z_invariant 0
      (mountedStars (List.replicate 24000 0) false (List.replicate 8000 0))
      (List.replicate 24000 0) [1, 2]
      (by simp only [positionArray, mountedStars])
      (List.length_replicate _ _)
  refine ⟨st', p', h1, h2, ?_⟩
  obtain ⟨x, z, hx, hz, hxz⟩ := h3 0 (by norm_num)
  simp only [List.getElem_replicate, sub_self] at hxz
  exact ⟨x, z, hx, hz, hxz⟩

/-- C5, as stated, fails: with the star reference set to an object without geometry the
geometry handle is unavailable, yet the callback raises instead of skipping. -/
theorem useFrame_raises_without_geometry :
    positionArray ({ starsRef := some { geometry := none }, speeds := [] } : StarsState ℝ)
        = none ∧
      useFrame Real.sin Real.cos 0
        ({ starsRef := some { geometry := none }, speeds := [] } : StarsState ℝ) 0
        = .error (.typeError "attributes") :=
  ⟨rfl, rfl⟩

/-- C5, amended: in every frame in which the star reference is unset, the callback returns
without raising and leaves the whole state, position buffer included, unchanged. -/
theorem useFrame_skips_when_ref_unset {α : Type} [Add α] [Mul α] [OfScientific α]
    (sin cos : α → α) (nan : α) (st : StarsState α) (time : α) (h : st.starsRef = none) :
    useFrame sin cos nan st time = .ok st := by
  simp only [useFrame, h]

/-- Witness for C5 amended: an unmounted star field with two speeds. -/
theorem useFrame_skips_when_ref_unset_witness :
    useFrame Real.sin Real.cos 0 ({ starsRef := none, speeds := [1, 2] } : StarsState ℝ) 5
      = .ok { starsRef := none, speeds := [1, 2] } :=
  useFrame_skips_when_ref_unset Real.sin Real.cos 0 { starsRef := none, speeds := [1, 2] } 5 rfl

end StarClaims

/-! ## Mount effects: the claims -/

section EffectLemmas

variable {α : Type} [Field α]

/-- The effect of `Portfolio` makes the two setup calls and nothing else when no material
is reached from the reference. -/
theorem portfolioEffect_of_no_material (textMeshRef : Option Text3DObject)
    (h : titleMaterial textMeshRef = none) :
    portfolioEffect (α := α) textMeshRef =
      .ok [.registerPlugin "ScrollTrigger", .scrollTriggerCreate heroPinVars] := by
  cases textMeshRef with
  | none => rfl
  | some obj =>
    simp only [titleMaterial] at h
    simp only [portfolioEffect]
    cases hc : firstChild obj with
    | none => rfl
    | some mesh =>
      rw [hc] at h
      simp only at h
      simp only [h]

/-- The effect of `Portfolio` makes the two setup calls and then binds the fade when a
material is reached from the reference. -/
theorem portfolioEffect_of_material (textMeshRef : Option Text3DObject) (m : Material)
    (h : titleMaterial textMeshRef = some m) :
    portfolioEffect (α := α) textMeshRef =
      .ok [.registerPlugin "ScrollTrigger", .scrollTriggerCreate heroPinVars,
           .gsapTo (.material m) fadeTweenVars] := by
  cases textMeshRef with
  | none => simp [titleMaterial] at h
  | some obj =>
    simp only [titleMaterial] at h
    simp only [portfolioEffect]
    cases hc : firstChild obj with
    | none => rw [hc] at h; simp at h
    | some mesh =>
      rw [hc] at h
      simp only at h
      simp only [h, List.cons_append, List.nil_append]

/-- No material is reached from a null reference, from an object without children list,
with an empty one, or whose first child has no material. -/
theorem titleMaterial_eq_none_of_missing (textMeshRef : Option Text3DObject)
    (h : textMeshRef = none ∨ ∃ obj, textMeshRef = some obj ∧
      (obj.children = none ∨ obj.children = some [] ∨
        ∃ mesh rest, obj.children = some (some mesh :: rest) ∧ mesh.material = none)) :
    titleMaterial textMeshRef = none := by
  rcases h with h | ⟨obj, h, hc | hc | ⟨mesh, rest, hc, hm⟩⟩
  · subst h; rfl
  · subst h; simp [titleMaterial, firstChild, hc]
  · subst h; simp [titleMaterial, firstChild, hc]
  · subst h; simp [titleMaterial, firstChild, hc, hm]

end EffectLemmas

section EffectClaims

/-- C3: when the title reference is null, or the referenced object has no children list or
an empty one, or its first child has no material, the mount effect of `Portfolio` completes
without raising and registers no opacity tween; when the reference, its first child and that
child's material are all present, it completes and registers exactly one opacity tween, and
that tween targets this material. -/
theorem portfolioEffect_fade_wiring {α : Type} [Field α] (textMeshRef : Option Text3DObject) :
    ((textMeshRef = none ∨ ∃ obj, textMeshRef = some obj ∧
        (obj.children = none ∨ obj.children = some [] ∨
          ∃ mesh rest, obj.children = some (some mesh :: rest) ∧ mesh.material = none)) →
      ∃ calls, portfolioEffect (α := α) textMeshRef = .ok calls ∧ opacityTweens calls = []) ∧
    (∀ obj mesh rest material, textMeshRef = some obj →
      obj.children = some (some mesh :: rest) → mesh.material = some material →
      ∃ calls, portfolioEffect (α := α) textMeshRef = .ok calls ∧
        opacityTweens calls = [(.material material, fadeTweenVars)]) := by
  constructor
  · intro h
    refine ⟨_, portfolioEffect_of_no_material textMeshRef
      (titleMaterial_eq_none_of_missing textMeshRef h), ?_⟩
    simp [opacityTweens]
  · intro obj mesh rest material h hc hm
    have ht : titleMaterial textMeshRef = some material := by
      subst h; simp [titleMaterial, firstChild, hc, hm]
    refine ⟨_, portfolioEffect_of_material textMeshRef material ht, ?_⟩
    simp [opacityTweens, fadeTweenVars]

/-- Witness for C3: a title object whose first child carries material `7`, and a title
object with an empty children list. -/
theorem portfolioEffect_fade_wiring_witness :
    (∃ calls, portfolioEffect (α := ℚ)
        (some { rotation := ⟨1⟩, children := some [some { material := some ⟨7⟩ }] })
        = .ok calls ∧
      opacityTweens calls = [(.material ⟨7⟩, fadeTweenVars)]) ∧
    (∃ calls, portfolioEffect (α := ℚ) (some { rotation := ⟨1⟩, children := some [] })
        = .ok calls ∧
      opacityTweens calls = []) :=
  ⟨(portfolioEffect_fade_wiring
      (some { rotation := ⟨1⟩, children := some [some { material := some ⟨7⟩ }] })).2
      _ _ _ _ rfl rfl rfl,
   (portfolioEffect_fade_wiring (some { rotation := ⟨1⟩, children := some [] })).1
      (Or.inr ⟨_, rfl, Or.inr (Or.inl rfl)⟩)⟩

/-- C4: when the title reference is present and no material is reached from it, neither
mount effect raises, and the effect of `FloatingText` still starts exactly one tween, on the
rotation of the referenced object, with target `y = π / 14`, `repeat: -1` and `yoyo: true`;
the calls of that effect are the same whatever the children (hence the material) of the
referenced object are. -/
theorem rotation_starts_without_material (obj : Text3DObject)
    (h : titleMaterial (some obj) = none) :
    (∃ vars, floatingTextEffect Real.pi (some obj) = .ok [.gsapTo (.rotation obj.rotation) vars] ∧
      vars.y = some (Real.pi / 14) ∧ vars.repeat = some (-1) ∧ vars.yoyo = some true) ∧
    (∃ calls, portfolioEffect (α := ℝ) (some obj) = .ok calls) ∧
    (∀ children, floatingTextEffect Real.pi (some { obj with children := children }) =
      floatingTextEffect Real.pi (some obj)) :=
  ⟨⟨rotationTweenVars Real.pi, rfl, rfl, rfl, rfl⟩,
   ⟨_, portfolioEffect_of_no_material (some obj) h⟩,
   fun _ => rfl⟩

/-- Witness for C4: a title object whose only child has no material. -/
theorem rotation_starts_without_material_witness :
    (∃ vars, floatingTextEffect Real.pi
        (some { rotation := ⟨1⟩, children := some [some { material := none }] })
        = .ok [.gsapTo (.rotation ⟨1⟩) vars] ∧
      vars.y = some (Real.pi / 14) ∧ vars.repeat = some (-1) ∧ vars.yoyo = some true) ∧
    (∃ calls, portfolioEffect (α := ℝ)
        (some { rotation := ⟨1⟩, children := some [some { material := none }] })
        = .ok calls) :=
  ⟨(rotation_starts_without_material
      { rotation := ⟨1⟩, children := some [some { material := none }] } rfl).1,
   (rotation_starts_without_material
      { rotation := ⟨1⟩, children := some [some { material := none }] } rfl).2.1⟩

/-- C8: on every mount the effect of `Portfolio` completes having created exactly one scroll
trigger, with trigger `.hero`, start `top top`, end `bottom top`, pinning `.hero`; every
opacity tween it registers has a `scrollTrigger` with the same trigger, start and end; and
such a tween is registered whenever a material is reached from the title reference. -/
theorem fade_range_is_pin_range {α : Type} [Field α] (textMeshRef : Option Text3DObject) :
    ∃ calls pin, portfolioEffect (α := α) textMeshRef = .ok calls ∧
      pinTriggers calls = [pin] ∧
      pin.trigger = ".hero" ∧ pin.start = "top top" ∧ pin.end = "bottom top" ∧
      pin.pin = some ".hero" ∧
      (∀ tween ∈ opacityTweens calls, ∃ range, tween.2.scrollTrigger = some range ∧
        range.trigger = pin.trigger ∧ range.start = pin.start ∧ range.end = pin.end) ∧
      (titleMaterial textMeshRef ≠ none → (opacityTweens calls).length = 1) := by
  cases ht : titleMaterial textMeshRef with
  | none =>
    refine ⟨_, heroPinVars, portfolioEffect_of_no_material textMeshRef ht, ?_, rfl, rfl, rfl,
      rfl, ?_, ?_⟩
    · simp [pinTriggers]
    · simp [opacityTweens]
    · simp
  | some m =>
    refine ⟨_, heroPinVars, portfolioEffect_of_material textMeshRef m ht, ?_, rfl, rfl, rfl,
      rfl, ?_, ?_⟩
    · simp [pinTriggers]
    · simp [opacityTweens, fadeTweenVars, heroPinVars]
    · simp [opacityTweens, fadeTweenVars]

/-- C9: the element tree returned by `Portfolio` contains exactly two anchors, in this
order: one showing `github.com/7arnav1` that leads to `https://github.com/7arnav1`, one
showing `linkedin.com/in/arnav-srivastav` that leads to
`https://www.linkedin.com/in/arnav-srivastav/`; both have target `_blank`. -/
theorem portfolio_anchors :
    anchors portfolioTree =
      [ { text := "github.com/7arnav1", href := some "https://github.com/7arnav1",
          target := some "_blank" },
        { text := "linkedin.com/in/arnav-srivastav",
          href := some "https://www.linkedin.com/in/arnav-srivastav/",
          target := some "_blank" } ] := by
  decide

end EffectClaims

/-! ## Tweens: the claims -/

section EngineLemmas

variable {α : Type} [LinearOrderedField α]

/-- The default curve `power1.out` starts at `0`, ends at `1` and does not decrease on
`[0, 1]`. -/
theorem easeCurve_default_monotone (q1 q2 : α) (h1 : q1 ≤ q2) (h2 : q2 ≤ 1) :
    easeCurve none q1 ≤ easeCurve none q2 := by
  simp only [easeCurve, reduceCtorEq, if_false]
  have ha : 0 ≤ 1 - q2 := by linarith
  have hb : 1 - q2 ≤ 1 - q1 := by linarith
  have hc : (1 - q2) ^ 2 ≤ (1 - q1) ^ 2 := pow_le_pow_left₀ ha hb 2
  linarith

/-- The curve `power2.inOut` maps `[0, 1]` into `[0, 1]`. -/
theorem easeCurve_inOut_mem (p : α) (h0 : 0 ≤ p) (h1 : p ≤ 1) :
    0 ≤ easeCurve (some "power2.inOut") p ∧ easeCurve (some "power2.inOut") p ≤ 1 := by
  simp only [easeCurve, if_true]
  by_cases hp : p < 1 / 2
  · simp only [hp, if_true]
    have ha : 0 ≤ p * 2 := by linarith
    have hb : p * 2 ≤ 1 := by linarith
    have hc : 0 ≤ (p * 2) ^ 3 := pow_nonneg ha 3
    have hd : (p * 2) ^ 3 ≤ 1 := pow_le_one₀ ha hb
    constructor <;> linarith
  · simp only [hp, if_false]
    have hp' : 1 / 2 ≤ p := not_lt.mp hp
    have ha : 0 ≤ (1 - p) * 2 := by linarith
    have hb : (1 - p) * 2 ≤ 1 := by linarith
    have hc : 0 ≤ ((1 - p) * 2) ^ 3 := pow_nonneg ha 3
    have hd : ((1 - p) * 2) ^ 3 ≤ 1 := pow_le_one₀ ha hb
    constructor <;> linarith

/-- The triangle wave stays in `[0, 1]`. -/
theorem yoyoProgress_mem [FloorRing α] (duration tau : α) :
    0 ≤ yoyoProgress duration tau ∧ yoyoProgress duration tau ≤ 1 := by
  simp only [yoyoProgress]
  have h0 : 0 ≤ tau / duration - ⌊tau / duration⌋ := by
    have := Int.floor_le (tau / duration)
    linarith
  have h1 : tau / duration - ⌊tau / duration⌋ < 1 := by
    have := Int.lt_floor_add_one (tau / duration)
    linarith
  split <;> constructor <;> linarith

/-- At a whole number `n` of durations the triangle wave is `0` for even `n` and `1` for odd
`n`. -/
theorem yoyoProgress_at_multiple [FloorRing α] (duration : α) (hd : duration ≠ 0) (n : Nat) :
    yoyoProgress duration (duration * n) = if n % 2 = 0 then 0 else 1 := by
  have hc : duration * n / duration = ((n : Int) : α) := by
    rw [Int.cast_natCast, mul_comm, mul_div_assoc, div_self hd, mul_one]
  simp only [yoyoProgress, hc, Int.floor_intCast, sub_self, sub_zero]
  by_cases hn : n % 2 = 0
  · have : (n : Int) % 2 = 0 := by omega
    simp [hn, this]
  · have : ¬ (n : Int) % 2 = 0 := by omega
    simp [hn, this]

end EngineLemmas

section EngineClaims

/-- C6: over the reals, with starting opacity `1`, the opacity at scroll progress `q` of the
fade tween configured in `Portfolio` is `1 + (0 - 1) * ease q` for the tween's own curve; it
is `1` at progress `0`, `0` at progress `1`, does not increase from `q1` to `q2` whenever
`0 ≤ q1 ≤ q2 ≤ 1`, and after any scroll path that ends at progress `q` it is the opacity at
`q`. -/
theorem scroll_fade_opacity :
    (∀ q : ℝ, scrubbedOpacity fadeTweenVars 1 q =
      1 + (0 - 1) * easeCurve (fadeTweenVars (α := ℝ)).ease q) ∧
    scrubbedOpacity fadeTweenVars 1 (0 : ℝ) = 1 ∧
    scrubbedOpacity fadeTweenVars 1 (1 : ℝ) = 0 ∧
    (∀ q1 q2 : ℝ, 0 ≤ q1 → q1 ≤ q2 → q2 ≤ 1 →
      scrubbedOpacity fadeTweenVars 1 q2 ≤ scrubbedOpacity fadeTweenVars 1 q1) ∧
    (∀ (path : List ℝ) (q : ℝ),
      opacityAfterScroll fadeTweenVars 1 (path ++ [q]) = scrubbedOpacity fadeTweenVars 1 q) := by
  refine ⟨fun q => rfl, ?_, ?_, ?_, ?_⟩
  · simp [scrubbedOpacity, tweenValue, fadeTweenVars, easeCurve]
  · simp [scrubbedOpacity, tweenValue, fadeTweenVars, easeCurve]
  · intro q1 q2 _ h12 h2
    have h := easeCurve_default_monotone q1 q2 h12 h2
    simp only [scrubbedOpacity, tweenValue, fadeTweenVars, Option.getD_some]
    linarith
  · intro path q
    simp [opacityAfterScroll, List.foldl_append]

/-- Witness for C6: the opacity does not increase from progress `1/4` to progress `3/4`. -/
theorem scroll_fade_opacity_witness :
    scrubbedOpacity fadeTweenVars 1 (3 / 4 : ℝ) ≤ scrubbedOpacity fadeTweenVars 1 (1 / 4 : ℝ) :=
  scroll_fade_opacity.2.2.2.1 (1 / 4) (3 / 4) (by norm_num) (by norm_num) (by norm_num)

/-- C7: over the reals, the `y` of the rotation tween started by `FloatingText` (from `0`
to `π / 14` in `3` seconds, repeated for ever with yoyo, eased by `power2.inOut`) lies in
`[0, π / 14]` at every time `tau ≥ 0`; it is `0` at every even multiple of the duration and
`π / 14` at every odd multiple. -/
theorem rotation_within_bounds (tau : ℝ) (_h : 0 ≤ tau) :
    (0 ≤ rotationY (rotationTweenVars Real.pi) 0 tau ∧
      rotationY (rotationTweenVars Real.pi) 0 tau ≤ Real.pi / 14) ∧
    (∀ k : Nat, rotationY (rotationTweenVars Real.pi) 0 (3 * (2 * k : Nat)) = 0) ∧
    (∀ k : Nat, rotationY (rotationTweenVars Real.pi) 0 (3 * (2 * k + 1 : Nat)) =
      Real.pi / 14) := by
  have hpi : 0 ≤ Real.pi / 14 := by positivity
  refine ⟨?_, ?_, ?_⟩
  · obtain ⟨p0, p1⟩ := yoyoProgress_mem (3 : ℝ) tau
    obtain ⟨e0, e1⟩ := easeCurve_inOut_mem (yoyoProgress (3 : ℝ) tau) p0 p1
    simp only [rotationY, rotationTweenVars, tweenValue, Option.getD_some, sub_zero, zero_add]
    constructor
    · exact mul_nonneg hpi e0
    · calc Real.pi / 14 * easeCurve (some "power2.inOut") (yoyoProgress 3 tau)
          ≤ Real.pi / 14 * 1 := mul_le_mul_of_nonneg_left e1 hpi
        _ = Real.pi / 14 := mul_one _
  · intro k
    have hm : (2 * k) % 2 = 0 := by omega
    simp only [rotationY, rotationTweenVars, tweenValue, Option.getD_some,
      yoyoProgress_at_multiple (3 : ℝ) (by norm_num) (2 * k), hm, if_true]
    simp [easeCurve]
  · intro k
    have hm : ¬ (2 * k + 1) % 2 = 0 := by omega
    simp only [rotationY, rotationTweenVars, tweenValue, Option.getD_some,
      yoyoProgress_at_multiple (3 : ℝ) (by norm_num) (2 * k + 1), hm, if_false]
    simp [easeCurve]
    norm_num

/-- Witness for C7: the rotation one second after mount. -/
theorem rotation_within_bounds_witness :
    0 ≤ rotationY (rotationTweenVars Real.pi) 0 1 ∧
      rotationY (rotationTweenVars Real.pi) 0 1 ≤ Real.pi / 14 :=
  (rotation_within_bounds 1 (by norm_num)).1

end EngineClaims
end Website
